import Mathlib

/-!
Shallow embedding of `nuitka/nodes/ExpressionShapeMixins.py`, the shape
capability mixins of the Nuitka optimizing compiler.  Each mixin class of the
source file becomes a case of `ShapeMixin`; the capability methods become
Lean functions over that enumeration.  The runtime configuration test
`str is not bytes` at the bottom of the source file is modelled by the
boolean parameter `str_is_bytes` (`false` on runtimes where narrow and wide
text are unified, `true` on runtimes where they differ), which selects
whether `ExpressionStrOrUnicodeExactMixin` is an alias of
`ExpressionStrExactMixin` or a distinct class.

Attribute introspection (`hasattr` / `getattr` on the canonical empty
representative instances `the_empty_dict`, `the_empty_list`, ..., `False`,
`""`, `u""`, `b""`) is modelled by an abstract attribute table
`AttrEnv α : BuiltinType → String → Option α`: the member set of a Python
built-in type is a property of the type, so every empty instance of the
type answers `hasattr` / `getattr` through the same table row.
-/

/-- The built-in types whose canonical empty instances the mixins probe,
and which tag the diagnostic constant-reference nodes. -/
inductive BuiltinType where
  | bool
  | dict
  | list
  | set
  | frozenset
  | tuple
  | str
  | bytes
  | bytearray
  | unicode
  deriving DecidableEq, Fintype

/-- The exact-shape queries of the capability surface, one per
`hasShape...Exact` method of `ExpressionSpecificExactMixinBase`.  The
constructor `frozesetExact` keeps the source's spelling of
`hasShapeFrozesetExact`. -/
inductive ShapeQuery where
  | boolExact
  | dictionaryExact
  | listExact
  | setExact
  | frozesetExact
  | tupleExact
  | strExact
  | unicodeExact
  | strOrUnicodeExact
  | bytesExact
  | bytearrayExact
  deriving DecidableEq, Fintype

/-- The type shapes returned by `getTypeShape`, mirroring the imports from
`BuiltinTypeShapes`. -/
inductive TypeShape where
  | tshape_bool
  | tshape_bytearray
  | tshape_bytes
  | tshape_dict
  | tshape_frozenset
  | tshape_list
  | tshape_set
  | tshape_str
  | tshape_str_or_unicode
  | tshape_tuple
  | tshape_unicode
  deriving DecidableEq, Fintype

/-- The concrete shape mixin classes of the source file.  `strOrUnicodeShape`
stands for `ExpressionStrOrUnicodeExactMixin`, whose realization depends on
the runtime configuration. -/
inductive ShapeMixin where
  | dictShape
  | listShape
  | frozensetShape
  | setShape
  | tupleShape
  | boolShape
  | strShape
  | bytesShape
  | bytearrayShape
  | unicodeShape
  | strOrUnicodeShape
  deriving DecidableEq, Fintype

/-- Exception types that may be passed to `mayRaiseException...` queries;
the values are opaque to this subsystem. -/
inductive ExceptionType where
  | attributeError
  | typeError
  | baseException
  deriving DecidableEq, Fintype

/-- Attribute table of the built-in types: for a type tag and an attribute
name, the attribute's value on an instance (in particular on the canonical
empty representative instance), or `none` when absent. -/
def AttrEnv (α : Type) : Type := BuiltinType → String → Option α

/-- Python `hasattr` on the canonical empty instance of a built-in type. -/
def hasattrOn {α : Type} (env : AttrEnv α) (t : BuiltinType) (n : String) : Bool :=
  (env t n).isSome

/-- Python `getattr` on the canonical empty instance of a built-in type. -/
def getattrOn {α : Type} (env : AttrEnv α) (t : BuiltinType) (n : String) : Option α :=
  env t n

/-- `ExpressionSpecificExactMixinBase`: every `hasShape...Exact` query
defaults to `False`. -/
def baseShapeAnswers (q : ShapeQuery) : Bool :=
  match q with
  | _ => false

/-- `ExpressionDictShapeExactMixin`: overrides `hasShapeDictionaryExact`. -/
def dictShapeAnswers : ShapeQuery → Bool
  | .dictionaryExact => true
  | q => baseShapeAnswers q

/-- `ExpressionListShapeExactMixin`: overrides `hasShapeListExact`. -/
def listShapeAnswers : ShapeQuery → Bool
  | .listExact => true
  | q => baseShapeAnswers q

/-- `ExpressionFrozensetShapeExactMixin`: the override the source actually
performs is of `hasShapeListExact` (lines 201-203 of the source). -/
def frozensetShapeAnswers : ShapeQuery → Bool
  | .listExact => true
  | q => baseShapeAnswers q

/-- `ExpressionSetShapeExactMixin`: overrides `hasShapeSetExact`. -/
def setShapeAnswers : ShapeQuery → Bool
  | .setExact => true
  | q => baseShapeAnswers q

/-- `ExpressionTupleShapeExactMixin`: the override the source actually
performs is of `hasShapeSetExact` (lines 258-260 of the source). -/
def tupleShapeAnswers : ShapeQuery → Bool
  | .setExact => true
  | q => baseShapeAnswers q

/-- `ExpressionBoolShapeExactMixin`: overrides `hasShapeBoolExact`. -/
def boolShapeAnswers : ShapeQuery → Bool
  | .boolExact => true
  | q => baseShapeAnswers q

/-- `ExpressionStrExactMixin`: overrides both `hasShapeStrExact` and
`hasShapeStrOrUnicodeExact`. -/
def strShapeAnswers : ShapeQuery → Bool
  | .strExact => true
  | .strOrUnicodeExact => true
  | q => baseShapeAnswers q

/-- `ExpressionBytesShapeExactMixin`: overrides `hasShapeBytesExact`. -/
def bytesShapeAnswers : ShapeQuery → Bool
  | .bytesExact => true
  | q => baseShapeAnswers q

/-- `ExpressionBytearrayShapeExactMixin`: overrides `hasShapeBytearrayExact`. -/
def bytearrayShapeAnswers : ShapeQuery → Bool
  | .bytearrayExact => true
  | q => baseShapeAnswers q

/-- `ExpressionUnicodeShapeExactMixin`: overrides both `hasShapeUnicodeExact`
and `hasShapeStrOrUnicodeExact`. -/
def unicodeShapeAnswers : ShapeQuery → Bool
  | .unicodeExact => true
  | .strOrUnicodeExact => true
  | q => baseShapeAnswers q

/-- The class body of `ExpressionStrOrUnicodeExactMixin` defined on runtimes
where `str is bytes`: overrides `hasShapeStrOrUnicodeExact` only. -/
def strOrUnicodePy2ShapeAnswers : ShapeQuery → Bool
  | .strOrUnicodeExact => true
  | q => baseShapeAnswers q

/-- Dispatch of the exact-shape queries to the mixin classes.  On runtimes
where `str is not bytes` (`str_is_bytes = false`),
`ExpressionStrOrUnicodeExactMixin` is the very class
`ExpressionStrExactMixin`. -/
def hasShapeExact (str_is_bytes : Bool) : ShapeMixin → ShapeQuery → Bool
  | .dictShape => dictShapeAnswers
  | .listShape => listShapeAnswers
  | .frozensetShape => frozensetShapeAnswers
  | .setShape => setShapeAnswers
  | .tupleShape => tupleShapeAnswers
  | .boolShape => boolShapeAnswers
  | .strShape => strShapeAnswers
  | .bytesShape => bytesShapeAnswers
  | .bytearrayShape => bytearrayShapeAnswers
  | .unicodeShape => unicodeShapeAnswers
  | .strOrUnicodeShape =>
      if str_is_bytes then strOrUnicodePy2ShapeAnswers else strShapeAnswers

/-- `hasShapeTrustedAttributes` from the base class; no mixin overrides it. -/
def hasShapeTrustedAttributes (v : ShapeMixin) : Bool :=
  match v with
  | _ => true

/-- `isKnownToHaveAttribute` of each mixin: `hasattr` probed on the class's
canonical empty representative instance (`the_empty_dict`, ..., `False`,
`""`, `b""`, `u""`).  The `str is bytes` realization of
`ExpressionStrOrUnicodeExactMixin` requires the attribute on both the wide
(`u""`) and the narrow (`""`) representative. -/
def isKnownToHaveAttribute (str_is_bytes : Bool) {α : Type} (env : AttrEnv α) :
    ShapeMixin → String → Bool
  | .dictShape, n => hasattrOn env .dict n
  | .listShape, n => hasattrOn env .list n
  | .frozensetShape, n => hasattrOn env .frozenset n
  | .setShape, n => hasattrOn env .set n
  | .tupleShape, n => hasattrOn env .tuple n
  | .boolShape, n => hasattrOn env .bool n
  | .strShape, n => hasattrOn env .str n
  | .bytesShape, n => hasattrOn env .bytes n
  | .bytearrayShape, n => hasattrOn env .bytearray n
  | .unicodeShape, n => hasattrOn env .unicode n
  | .strOrUnicodeShape, n =>
      if str_is_bytes then hasattrOn env .unicode n && hasattrOn env .str n
      else hasattrOn env .str n

/-- `getKnownAttributeValue` of each mixin: `getattr` on the class's
canonical empty representative instance.  The `str is bytes` realization of
`ExpressionStrOrUnicodeExactMixin` fetches from the narrow (`""`)
representative. -/
def getKnownAttributeValue (str_is_bytes : Bool) {α : Type} (env : AttrEnv α) :
    ShapeMixin → String → Option α
  | .dictShape, n => getattrOn env .dict n
  | .listShape, n => getattrOn env .list n
  | .frozensetShape, n => getattrOn env .frozenset n
  | .setShape, n => getattrOn env .set n
  | .tupleShape, n => getattrOn env .tuple n
  | .boolShape, n => getattrOn env .bool n
  | .strShape, n => getattrOn env .str n
  | .bytesShape, n => getattrOn env .bytes n
  | .bytearrayShape, n => getattrOn env .bytearray n
  | .unicodeShape, n => getattrOn env .unicode n
  | .strOrUnicodeShape, n =>
      if str_is_bytes then getattrOn env .str n
      else getattrOn env .str n

/-- `mayRaiseExceptionAttributeLookup` from the base class (the
`exception_type` argument is accepted but not checked); no mixin overrides
it. -/
def mayRaiseExceptionAttributeLookup (str_is_bytes : Bool) {α : Type}
    (env : AttrEnv α) (v : ShapeMixin) (exception_type : ExceptionType)
    (attribute_name : String) : Bool :=
  match exception_type with
  | _ => ! isKnownToHaveAttribute str_is_bytes env v attribute_name

/-- `mayRaiseExceptionBool` from the base class; no mixin overrides it. -/
def mayRaiseExceptionBool (v : ShapeMixin) (exception_type : ExceptionType) : Bool :=
  match v, exception_type with
  | _, _ => false

/-- `mayHaveSideEffectsBool` from the base class; no mixin overrides it. -/
def mayHaveSideEffectsBool (v : ShapeMixin) : Bool :=
  match v with
  | _ => false

/-- `isKnownToBeHashable` of each mixin, Python's `True` / `False` / `None`
rendered as `some true` / `some false` / `none`. -/
def isKnownToBeHashable (str_is_bytes : Bool) : ShapeMixin → Option Bool
  | .dictShape => some false
  | .listShape => some false
  | .frozensetShape => some true
  | .setShape => some false
  | .tupleShape => none
  | .boolShape => some true
  | .strShape => some true
  | .bytesShape => some true
  | .bytearrayShape => some false
  | .unicodeShape => some true
  | .strOrUnicodeShape => if str_is_bytes then some true else some true

/-- The tri-state hashability verdict vocabulary of the specification. -/
inductive Verdict where
  | always
  | never
  | unknown
  deriving DecidableEq, Fintype

/-- Reading `isKnownToBeHashable`'s Python answer as a verdict:
`True` is `Always`, `False` is `Never`, `None` is `Unknown`. -/
def verdictOf : Option Bool → Verdict
  | some true => .always
  | some false => .never
  | none => .unknown

/-- `getTypeShape` of each mixin. -/
def getTypeShape (str_is_bytes : Bool) : ShapeMixin → TypeShape
  | .dictShape => .tshape_dict
  | .listShape => .tshape_list
  | .frozensetShape => .tshape_frozenset
  | .setShape => .tshape_set
  | .tupleShape => .tshape_tuple
  | .boolShape => .tshape_bool
  | .strShape => .tshape_str
  | .bytesShape => .tshape_bytes
  | .bytearrayShape => .tshape_bytearray
  | .unicodeShape => .tshape_unicode
  | .strOrUnicodeShape =>
      if str_is_bytes then .tshape_str_or_unicode else .tshape_str

/-- A constant reference node as produced by `makeConstantRefNode` for the
unhashable diagnostic: the built-in type it is tagged with, and the source
reference it carries. -/
structure ConstantRefNode where
  constant : BuiltinType
  source_ref : Nat
  deriving DecidableEq

/-- The `makeConstantRefNode` collaborator, kept opaque: it packs the
constant and the source reference. -/
def makeConstantRefNode (c : BuiltinType) (s : Nat) : ConstantRefNode :=
  ⟨c, s⟩

/-- `extractUnhashableNodeType`: implemented only by the dict, list, set and
bytearray mixins, each returning a constant reference node tagged with its
own built-in type; `none` models the method being absent on the other
mixins.  No realization of `ExpressionStrOrUnicodeExactMixin` implements
it, so no configuration flag is needed. -/
def extractUnhashableNodeType (source_ref : Nat) : ShapeMixin → Option ConstantRefNode
  | .dictShape => some (makeConstantRefNode .dict source_ref)
  | .listShape => some (makeConstantRefNode .list source_ref)
  | .setShape => some (makeConstantRefNode .set source_ref)
  | .bytearrayShape => some (makeConstantRefNode .bytearray source_ref)
  | _ => none

/-- The built-in type of each mixin's representative empty instance: the
type the mixin's attribute probes read, and the type whose zero value the
variant describes.  The `ExpressionStrOrUnicodeExactMixin` fetches values
from the narrow (`""`) representative in both configurations. -/
def representativeType : ShapeMixin → BuiltinType
  | .dictShape => .dict
  | .listShape => .list
  | .frozensetShape => .frozenset
  | .setShape => .set
  | .tupleShape => .tuple
  | .boolShape => .bool
  | .strShape => .str
  | .bytesShape => .bytes
  | .bytearrayShape => .bytearray
  | .unicodeShape => .unicode
  | .strOrUnicodeShape => .str

/-- Modelled from the spec: the member tables of the Python built-in types
live in the CPython runtime, outside this repository.  The specification
records only that the mutable list type exposes an `append` member while
the immutable tuple type does not (querying attribute-exists of `append` on
the OrderedSequence(mutable) variant returns true; the same query on the
ImmutableSequence variant returns false), so exactly those two facts are
modelled; every other lookup is absent, matching the spec's statement that
attribute-exists of `nonexistent_xyz` returns false for every variant. -/
def pythonBuiltinAttrs : AttrEnv Nat :=
  fun t n =>
    match t, n with
    | .list, "append" => some 0
    | _, _ => none

/-- Helper: the attribute-value fetch of every mixin reads exactly the
attribute table row of its representative built-in type, in both runtime
configurations. -/
theorem getKnownAttributeValue_eq_representative (str_is_bytes : Bool)
    {α : Type} (env : AttrEnv α) (v : ShapeMixin) (n : String) :
    getKnownAttributeValue str_is_bytes env v n = env (representativeType v) n := by
  cases v <;> cases str_is_bytes <;> rfl

/-- Claim C1 (code bug): the frozenset mixin, documented as the exact
frozenset shape, answers true to the list exact-shape query and false to
the catalog's own frozenset query, and the tuple mixin, documented as the
exact tuple shape, answers true to the set exact-shape query and false to
the tuple query — so neither variant answers true exactly for its own
query, contradicting the stated invariant. -/
theorem frozenset_and_tuple_exact_shape_divergence :
    hasShapeExact false ShapeMixin.frozensetShape ShapeQuery.listExact = true ∧
    hasShapeExact false ShapeMixin.frozensetShape ShapeQuery.frozesetExact = false ∧
    hasShapeExact false ShapeMixin.tupleShape ShapeQuery.setExact = true ∧
    hasShapeExact false ShapeMixin.tupleShape ShapeQuery.tupleExact = false := by
  decide

/-- Claim C2: the hashability verdicts match the fixed table in every
runtime configuration: dict, list, set and bytearray are Never; bool,
narrow text, wide text, the text union, bytes and frozenset are Always;
tuple is Unknown. -/
theorem hashability_verdict_table :
    ∀ b : Bool,
      verdictOf (isKnownToBeHashable b ShapeMixin.dictShape) = Verdict.never ∧
      verdictOf (isKnownToBeHashable b ShapeMixin.listShape) = Verdict.never ∧
      verdictOf (isKnownToBeHashable b ShapeMixin.setShape) = Verdict.never ∧
      verdictOf (isKnownToBeHashable b ShapeMixin.bytearrayShape) = Verdict.never ∧
      verdictOf (isKnownToBeHashable b ShapeMixin.boolShape) = Verdict.always ∧
      verdictOf (isKnownToBeHashable b ShapeMixin.strShape) = Verdict.always ∧
      verdictOf (isKnownToBeHashable b ShapeMixin.unicodeShape) = Verdict.always ∧
      verdictOf (isKnownToBeHashable b ShapeMixin.strOrUnicodeShape) = Verdict.always ∧
      verdictOf (isKnownToBeHashable b ShapeMixin.bytesShape) = Verdict.always ∧
      verdictOf (isKnownToBeHashable b ShapeMixin.frozensetShape) = Verdict.always ∧
      verdictOf (isKnownToBeHashable b ShapeMixin.tupleShape) = Verdict.unknown := by
  decide

/-- Claim C3: for every configuration, attribute table, variant, exception
type and attribute name, the may-raise-on-attribute-lookup answer is the
boolean negation of the attribute-exists answer, and it does not depend on
the exception-type argument. -/
theorem mayRaiseAttributeLookup_is_negation (b : Bool) {α : Type}
    (env : AttrEnv α) (v : ShapeMixin) (et et2 : ExceptionType) (n : String) :
    mayRaiseExceptionAttributeLookup b env v et n
      = ! isKnownToHaveAttribute b env v n ∧
    mayRaiseExceptionAttributeLookup b env v et n
      = mayRaiseExceptionAttributeLookup b env v et2 n := by
  cases et <;> cases et2 <;> exact ⟨rfl, rfl⟩

/-- Claim C4: boolean conversion never raises and never has side effects,
for every variant and every exception-type argument. -/
theorem boolConversion_never_raises_no_side_effects :
    ∀ (v : ShapeMixin) (et : ExceptionType),
      mayRaiseExceptionBool v et = false ∧ mayHaveSideEffectsBool v = false := by
  decide

/-- Claim C5: for every configuration, attribute table, variant and
attribute name, if attribute-exists answers true then attribute-value
returns a value, and that value equals the attribute of that name on the
zero-valued empty instance of the variant's built-in type (the table row
of its representative type). -/
theorem knownAttributeValue_matches_empty_instance (str_is_bytes : Bool)
    {α : Type} (env : AttrEnv α) (v : ShapeMixin) (n : String)
    (h : isKnownToHaveAttribute str_is_bytes env v n = true) :
    ∃ a : α, getKnownAttributeValue str_is_bytes env v n = some a ∧
      env (representativeType v) n = some a := by
  have hs : (env (representativeType v) n).isSome = true := by
    cases v <;> cases str_is_bytes <;>
      simp_all [isKnownToHaveAttribute, hasattrOn, representativeType]
  obtain ⟨a, ha⟩ := Option.isSome_iff_exists.mp hs
  refine ⟨a, ?_, ha⟩
  rw [getKnownAttributeValue_eq_representative]
  exact ha

/-- Claim C5 witness: on the list variant with the attribute `append` of
the modelled built-in attribute tables, attribute-exists holds and the
value matches the empty list's table row. -/
theorem knownAttributeValue_matches_empty_instance_witness :
    isKnownToHaveAttribute false pythonBuiltinAttrs ShapeMixin.listShape "append" = true ∧
    ∃ a : Nat,
      getKnownAttributeValue false pythonBuiltinAttrs ShapeMixin.listShape "append" = some a ∧
      pythonBuiltinAttrs (representativeType ShapeMixin.listShape) "append" = some a :=
  ⟨rfl, knownAttributeValue_matches_empty_instance false pythonBuiltinAttrs
    ShapeMixin.listShape "append" rfl⟩

/-- Claim C6: with the modelled built-in attribute tables, the list variant
answers true to attribute-exists of `append` and the tuple variant answers
false, in every runtime configuration. -/
theorem append_attribute_list_tuple :
    ∀ b : Bool,
      isKnownToHaveAttribute b pythonBuiltinAttrs ShapeMixin.listShape "append" = true ∧
      isKnownToHaveAttribute b pythonBuiltinAttrs ShapeMixin.tupleShape "append" = false := by
  intro b
  exact ⟨rfl, rfl⟩

/-- Claim C7: in the configuration where narrow and wide text are unified
(`str_is_bytes = false`), the text-union variant answers every capability
query identically to the narrow-text variant: every exact-shape query,
trusted attributes, attribute existence and value, attribute-lookup and
boolean-conversion exception queries, side effects, hashability, type
shape, and the unhashable diagnostic. -/
theorem strOrUnicode_unified_equals_str {α : Type} (env : AttrEnv α)
    (q : ShapeQuery) (et : ExceptionType) (n : String) (sr : Nat) :
    hasShapeExact false ShapeMixin.strOrUnicodeShape q
      = hasShapeExact false ShapeMixin.strShape q ∧
    hasShapeTrustedAttributes ShapeMixin.strOrUnicodeShape
      = hasShapeTrustedAttributes ShapeMixin.strShape ∧
    isKnownToHaveAttribute false env ShapeMixin.strOrUnicodeShape n
      = isKnownToHaveAttribute false env ShapeMixin.strShape n ∧
    getKnownAttributeValue false env ShapeMixin.strOrUnicodeShape n
      = getKnownAttributeValue false env ShapeMixin.strShape n ∧
    mayRaiseExceptionAttributeLookup false env ShapeMixin.strOrUnicodeShape et n
      = mayRaiseExceptionAttributeLookup false env ShapeMixin.strShape et n ∧
    mayRaiseExceptionBool ShapeMixin.strOrUnicodeShape et
      = mayRaiseExceptionBool ShapeMixin.strShape et ∧
    mayHaveSideEffectsBool ShapeMixin.strOrUnicodeShape
      = mayHaveSideEffectsBool ShapeMixin.strShape ∧
    isKnownToBeHashable false ShapeMixin.strOrUnicodeShape
      = isKnownToBeHashable false ShapeMixin.strShape ∧
    getTypeShape false ShapeMixin.strOrUnicodeShape
      = getTypeShape false ShapeMixin.strShape ∧
    extractUnhashableNodeType sr ShapeMixin.strOrUnicodeShape
      = extractUnhashableNodeType sr ShapeMixin.strShape := by
  cases et <;>
    exact ⟨rfl, rfl, rfl, rfl, rfl, rfl, rfl, rfl, rfl, rfl⟩

/-- Claim C8: in the configuration where narrow and wide text differ
(`str_is_bytes = true`), the text-union variant's attribute-exists is the
conjunction of presence on the wide and on the narrow representative, and
its attribute-value is fetched from the narrow representative. -/
theorem strOrUnicode_py2_and_narrow_policy {α : Type} (env : AttrEnv α)
    (n : String) :
    (isKnownToHaveAttribute true env ShapeMixin.strOrUnicodeShape n
       = (hasattrOn env BuiltinType.unicode n && hasattrOn env BuiltinType.str n)) ∧
    getKnownAttributeValue true env ShapeMixin.strOrUnicodeShape n
      = getattrOn env BuiltinType.str n :=
  ⟨rfl, rfl⟩

/-- Claim C9: every variant whose hashability verdict is Never implements
the unhashable diagnostic and returns a constant-reference node tagged with
its own built-in type, while the tuple variant does not implement the
diagnostic at all. -/
theorem never_hashable_supplies_diagnostic (b : Bool) (v : ShapeMixin) (sr : Nat) :
    (isKnownToBeHashable b v = some false →
      extractUnhashableNodeType sr v
        = some (makeConstantRefNode (representativeType v) sr)) ∧
    extractUnhashableNodeType sr ShapeMixin.tupleShape = none := by
  refine ⟨?_, rfl⟩
  intro h
  cases v <;> cases b <;> first | rfl | simp [isKnownToBeHashable] at h

/-- Claim C9 witness: the dict variant's verdict is Never and its diagnostic
node is tagged with the dict built-in type. -/
theorem never_hashable_supplies_diagnostic_witness :
    isKnownToBeHashable false ShapeMixin.dictShape = some false ∧
    extractUnhashableNodeType 0 ShapeMixin.dictShape
      = some (makeConstantRefNode (representativeType ShapeMixin.dictShape) 0) :=
  ⟨rfl, (never_hashable_supplies_diagnostic false ShapeMixin.dictShape 0).1 rfl⟩

/-- Claim C10: in every configuration, the narrow-text variant answers true
exactly to the str and str-or-unicode exact-shape queries, the wide-text
variant exactly to the unicode and str-or-unicode queries, and the
text-union variant also answers true to the str-or-unicode query — so a
true str-or-unicode answer does not identify the text-union variant. -/
theorem str_unicode_two_true_queries :
    ∀ (b : Bool) (q : ShapeQuery),
      (hasShapeExact b ShapeMixin.strShape q = true
         ↔ (q = ShapeQuery.strExact ∨ q = ShapeQuery.strOrUnicodeExact)) ∧
      (hasShapeExact b ShapeMixin.unicodeShape q = true
         ↔ (q = ShapeQuery.unicodeExact ∨ q = ShapeQuery.strOrUnicodeExact)) ∧
      hasShapeExact b ShapeMixin.strOrUnicodeShape ShapeQuery.strOrUnicodeExact = true := by
  decide
